import Mathlib

/-!
Shallow embedding of the galaxy network-provisioning agent:
the vlan driver (`pkg/network/vlan`: `Init`, `CreateBridgeAndVlanDevice`,
`BridgeNameForVlan`, `MaybeCreateVlanDevice`, `getOrCreateVlanDevice`,
`getVlanIfExist`, `getVlanMaster`, `getOrCreateDevice`, `getOrCreateBridge`)
and the request dispatcher (`pkg/galaxy/server.go`: `requestFunc`,
`setupPortMapping`, `cleanupPortMapping`).

Kernel state (interfaces, their addresses, the route table) is modelled
explicitly; each netlink call consumes a call number and can be made to
fail by an injected-fault schedule, mirroring "any step may fail".
Every attempted kernel mutation (and the route snapshot) is recorded in
an event trace, so frame and ordering properties are statements about
the trace.
-/

/-- A kernel IPv4 address entry on one interface, with its label. -/
structure Addr where
  ip : String
  label : String
  loopback : Bool
deriving DecidableEq, Repr

instance : Inhabited Addr := ⟨⟨"", "", false⟩⟩

/-- Kind of a kernel interface: physical, 802.1Q vlan sub-interface
(carrying tag and parent interface index), or bridge. -/
inductive LinkKind where
  | physical : LinkKind
  | vlan : Nat → Nat → LinkKind
  | bridge : LinkKind
deriving DecidableEq, Repr

/-- A kernel interface: name, index, kind, master index (0 = none),
admin-up flag, hardware address, and its IPv4 addresses. -/
structure Link where
  name : String
  index : Nat
  kind : LinkKind
  master : Nat
  up : Bool
  hw : String
  addrs : List Addr
deriving DecidableEq, Repr

/-- A kernel IPv4 route entry, restricted to the fields the code reads
and copies (Gw, LinkIndex, Dst, Src, Scope). -/
structure Route where
  gw : String
  linkIndex : Nat
  dst : String
  src : String
  scope : Nat
deriving DecidableEq, Repr

/-- Observable kernel calls: one event per attempted mutation, plus the
route snapshot. -/
inductive Ev where
  | linkAdd : String → Ev
  | linkSetUp : String → Ev
  | linkSetMaster : String → String → Ev
  | addrDel : String → String → Ev
  | addrAdd : String → String → Ev
  | routeList : Ev
  | routeAdd : Nat → Ev
  | unsetArpIgnore : String → Ev
  | setProxyArp : String → Ev
  | enableNonlocalBind : Ev
deriving DecidableEq, Repr

/-- Errors: an injected kernel failure, the kernel's "file exists"
(benign for address/route adds), the store's not-found, or a message. -/
inductive GoErr where
  | injected : GoErr
  | alreadyExists : GoErr
  | notExist : GoErr
  | msg : String → GoErr
deriving DecidableEq, Repr

deriving instance DecidableEq for Except

/-- Render an error to its message text, as fmt's %v would. -/
def renderErr : GoErr → String
  | .injected => "injected failure"
  | .alreadyExists => "file exists"
  | .notExist => "file does not exist"
  | .msg s => s

/-- "file exists" test done via strings.Contains on the error text. -/
def isFileExists : GoErr → Bool
  | .alreadyExists => true
  | _ => false

/-- Kernel-facing system state: interface table, route table, the call
trace, the injected-fault schedule (call numbers that fail) and the
current call counter. -/
structure Sys where
  table : List Link
  routes : List Route
  trace : List Ev
  faults : List Nat
  calls : Nat
deriving DecidableEq, Repr

/-- Interface lookup by name (netlink.LinkByName's successful scan). -/
def LinkByNameT (table : List Link) (name : String) : Option Link :=
  table.find? (fun l => decide (l.name = name))

/-- Interface lookup by index (netlink.LinkByIndex's successful scan). -/
def LinkByIndexT (table : List Link) (idx : Nat) : Option Link :=
  table.find? (fun l => decide (l.index = idx))

/-- Largest interface index in the table. -/
def maxIndex (table : List Link) : Nat :=
  table.foldr (fun l m => max l.index m) 0

/-- Index the kernel assigns to a newly created interface. -/
def freshIndex (table : List Link) : Nat :=
  maxIndex table + 1

/-- netlink.LinkByName: may fail by injection; otherwise scans by name. -/
def nlLinkByName (name : String) (s : Sys) : Except GoErr Link × Sys :=
  let s' : Sys := { s with calls := s.calls + 1 }
  if s.calls ∈ s.faults then (.error .injected, s')
  else
    match LinkByNameT s.table name with
    | some l => (.ok l, s')
    | none => (.error (.msg "Link not found"), s')

/-- netlink.LinkByIndex: may fail by injection; otherwise scans by index. -/
def nlLinkByIndex (idx : Nat) (s : Sys) : Except GoErr Link × Sys :=
  let s' : Sys := { s with calls := s.calls + 1 }
  if s.calls ∈ s.faults then (.error .injected, s')
  else
    match LinkByIndexT s.table idx with
    | some l => (.ok l, s')
    | none => (.error (.msg "Link not found"), s')

/-- netlink.LinkList: may fail by injection; otherwise returns the table. -/
def nlLinkList (s : Sys) : Except GoErr (List Link) × Sys :=
  let s' : Sys := { s with calls := s.calls + 1 }
  if s.calls ∈ s.faults then (.error .injected, s')
  else (.ok s.table, s')

/-- netlink.AddrList for one device (IPv4 family): reads the device's
current address list from the kernel table. -/
def nlAddrList (link : Link) (s : Sys) : Except GoErr (List Addr) × Sys :=
  let s' : Sys := { s with calls := s.calls + 1 }
  if s.calls ∈ s.faults then (.error .injected, s')
  else
    match LinkByIndexT s.table link.index with
    | some dev => (.ok dev.addrs, s')
    | none => (.error (.msg "no such device"), s')

/-- netlink.LinkAdd: creates a new interface with a fresh kernel index;
fails with "file exists" when the name is taken. -/
def nlLinkAdd (l : Link) (s : Sys) : Except GoErr Unit × Sys :=
  let s' : Sys := { s with calls := s.calls + 1, trace := s.trace ++ [Ev.linkAdd l.name] }
  if s.calls ∈ s.faults then (.error .injected, s')
  else if (LinkByNameT s.table l.name).isSome then (.error .alreadyExists, s')
  else (.ok (), { s' with table := s.table ++ [{ l with index := freshIndex s.table }] })

/-- netlink.LinkSetUp: sets the admin-up flag of the given interface. -/
def nlLinkSetUp (link : Link) (s : Sys) : Except GoErr Unit × Sys :=
  let s' : Sys := { s with calls := s.calls + 1, trace := s.trace ++ [Ev.linkSetUp link.name] }
  if s.calls ∈ s.faults then (.error .injected, s')
  else
    let t := s.table.map (fun x => if x.index = link.index then { x with up := true } else x)
    (.ok (), { s' with table := t })

/-- netlink.LinkSetMaster: enslaves `link` to the bridge named
`masterName` (the code passes a bridge identified by name only). -/
def nlLinkSetMaster (link : Link) (masterName : String) (s : Sys) : Except GoErr Unit × Sys :=
  let s' : Sys := { s with calls := s.calls + 1,
                           trace := s.trace ++ [Ev.linkSetMaster link.name masterName] }
  if s.calls ∈ s.faults then (.error .injected, s')
  else
    match LinkByNameT s.table masterName with
    | none => (.error (.msg ("Link " ++ masterName ++ " not found")), s')
    | some m =>
      let t := s.table.map (fun x => if x.index = link.index then { x with master := m.index } else x)
      (.ok (), { s' with table := t })

/-- netlink.AddrDel: removes the address (matched by IP) from the device. -/
def nlAddrDel (link : Link) (a : Addr) (s : Sys) : Except GoErr Unit × Sys :=
  let s' : Sys := { s with calls := s.calls + 1, trace := s.trace ++ [Ev.addrDel link.name a.ip] }
  if s.calls ∈ s.faults then (.error .injected, s')
  else
    match LinkByIndexT s.table link.index with
    | none => (.error (.msg "no such device"), s')
    | some dev =>
      if (dev.addrs.find? (fun x => decide (x.ip = a.ip))).isSome then
        let t := s.table.map (fun x =>
          if x.index = link.index then
            { x with addrs := x.addrs.filter (fun y => decide (y.ip ≠ a.ip)) }
          else x)
        (.ok (), { s' with table := t })
      else (.error (.msg "cannot assign requested address"), s')

/-- netlink.AddrAdd: adds the address to the device; the kernel reports
"file exists" when the IP is already present on that device. -/
def nlAddrAdd (link : Link) (a : Addr) (s : Sys) : Except GoErr Unit × Sys :=
  let s' : Sys := { s with calls := s.calls + 1, trace := s.trace ++ [Ev.addrAdd link.name a.ip] }
  if s.calls ∈ s.faults then (.error .injected, s')
  else
    match LinkByIndexT s.table link.index with
    | none => (.error (.msg "no such device"), s')
    | some dev =>
      if (dev.addrs.find? (fun x => decide (x.ip = a.ip))).isSome then (.error .alreadyExists, s')
      else
        let t := s.table.map (fun x =>
          if x.index = link.index then { x with addrs := x.addrs ++ [a] } else x)
        (.ok (), { s' with table := t })

/-- netlink.RouteList for one device (IPv4 family): snapshot of the
routes whose link index is the device's. -/
def nlRouteList (idx : Nat) (s : Sys) : Except GoErr (List Route) × Sys :=
  let s' : Sys := { s with calls := s.calls + 1, trace := s.trace ++ [Ev.routeList] }
  if s.calls ∈ s.faults then (.error .injected, s')
  else (.ok (s.routes.filter (fun r => decide (r.linkIndex = idx))), s')

/-- netlink.RouteAdd: appends a route; "file exists" when the identical
route entry is already present. -/
def nlRouteAdd (r : Route) (s : Sys) : Except GoErr Unit × Sys :=
  let s' : Sys := { s with calls := s.calls + 1, trace := s.trace ++ [Ev.routeAdd r.linkIndex] }
  if s.calls ∈ s.faults then (.error .injected, s')
  else if s.routes.contains r then (.error .alreadyExists, s')
  else (.ok (), { s' with routes := s.routes ++ [r] })

/-- Modelled from the spec: utils.UnSetArpIgnore (code not under src/) —
"disable ARP-ignore globally and on the device"; a sysctl write that can
only fail by an injected failure. -/
def utilUnSetArpIgnore (dev : String) (s : Sys) : Except GoErr Unit × Sys :=
  let s' : Sys := { s with calls := s.calls + 1, trace := s.trace ++ [Ev.unsetArpIgnore dev] }
  if s.calls ∈ s.faults then (.error .injected, s')
  else (.ok (), s')

/-- Modelled from the spec: utils.SetProxyArp (code not under src/) —
"enable proxy-ARP on the device"; a sysctl write. -/
def utilSetProxyArp (dev : String) (s : Sys) : Except GoErr Unit × Sys :=
  let s' : Sys := { s with calls := s.calls + 1, trace := s.trace ++ [Ev.setProxyArp dev] }
  if s.calls ∈ s.faults then (.error .injected, s')
  else (.ok (), s')

/-- Modelled from the spec: utils.EnableNonlocalBind (code not under
src/) — "enable non-local bind"; a sysctl write. -/
def utilEnableNonlocalBind (s : Sys) : Except GoErr Unit × Sys :=
  let s' : Sys := { s with calls := s.calls + 1, trace := s.trace ++ [Ev.enableNonlocalBind] }
  if s.calls ∈ s.faults then (.error .injected, s')
  else (.ok (), s')

/-- Modelled from the spec: utils.CreateBridgeDevice (code not under
src/) — create a bridge interface, "reusing its hardware address only
when newly created with a caller-supplied MAC, otherwise
kernel-assigned". -/
def utilCreateBridgeDevice (name : String) (mac : Option String) (s : Sys) :
    Except GoErr Unit × Sys :=
  nlLinkAdd { name := name, index := 0, kind := .bridge, master := 0, up := false,
              hw := mac.getD "", addrs := [] } s

/-- Modelled from the spec: network.FilterLoopbackAddr (code not under
src/) — keep only the non-loopback IPv4 addresses. -/
def FilterLoopbackAddr (addrs : List Addr) : List Addr :=
  addrs.filter (fun a => !a.loopback)

/-- NetConf: the parsed network configuration (pkg/network/vlan). The
prefix naming fields keep the source meaning under shortened names. -/
structure NetConf where
  Device : String
  Switch : String
  DisableDefaultBridge : Option Bool
  DefaultBridgeName : String
  BridgeNamePref : String
  VlanNamePref : String
deriving DecidableEq, Repr

/-- VlanDriver: embedded NetConf plus the resolved parent index and the
current authoritative device index. -/
structure VlanDriver where
  conf : NetConf
  vlanParentIndex : Nat
  DeviceIndex : Nat
deriving DecidableEq, Repr

/-- d.MacVlanMode(). -/
def MacVlanMode (d : VlanDriver) : Bool := decide (d.conf.Switch = "macvlan")

/-- d.IPVlanMode(). -/
def IPVlanMode (d : VlanDriver) : Bool := decide (d.conf.Switch = "ipvlan")

/-- d.PureMode(). -/
def PureMode (d : VlanDriver) : Bool := decide (d.conf.Switch = "pure")

/-- d.BridgeNameForVlan: "" for tag 0 in pure mode, the default bridge
name for tag 0 otherwise, and prefix+tag for a non-zero tag. -/
def BridgeNameForVlan (d : VlanDriver) (vlanId : Nat) : String :=
  if vlanId = 0 ∧ PureMode d then ""
  else
    let bridgeName := d.conf.DefaultBridgeName
    if vlanId ≠ 0 then d.conf.BridgeNamePref ++ Nat.repr vlanId else bridgeName

example : Nat.repr 7 = "7" := by decide
example : ("docker" ++ Nat.repr 7) = "docker7" := by decide

/-- getOrCreateDevice: look up by name; on any lookup failure invoke the
creation callback once, then re-look-up; fail if still absent. -/
def getOrCreateDevice (name : String) (createDevice : Sys → Except GoErr Unit × Sys)
    (s : Sys) : Except GoErr Link × Sys :=
  match nlLinkByName name s with
  | (.ok l, s1) => (.ok l, s1)
  | (.error _, s1) =>
    match createDevice s1 with
    | (.error e, s2) => (.error (.msg ("Failed to add " ++ name ++ ": " ++ renderErr e)), s2)
    | (.ok _, s2) =>
      match nlLinkByName name s2 with
      | (.ok l, s3) => (.ok l, s3)
      | (.error e, s3) => (.error (.msg ("Failed to get " ++ name ++ ": " ++ renderErr e)), s3)

/-- getOrCreateBridge: obtain-or-create a bridge by name, with an
optional hardware address used only on creation. -/
def getOrCreateBridge (bridgeName : String) (mac : Option String) (s : Sys) :
    Except GoErr Link × Sys :=
  getOrCreateDevice bridgeName (fun s0 =>
    match utilCreateBridgeDevice bridgeName mac s0 with
    | (.error _, s1) => (.error (.msg ("Failed to add bridge device " ++ bridgeName)), s1)
    | (.ok _, s1) => (.ok (), s1)) s

/-- Matching predicate of the discovery scan: a vlan sub-interface
whose tag and parent index both match. -/
def vlanMatch (vlanId parent : Nat) (l : Link) : Bool :=
  match l.kind with
  | .vlan tag par => decide (tag = vlanId) && decide (par = parent)
  | _ => false

/-- getVlanIfExist: scan all interfaces for a vlan sub-interface whose
tag and parent index both match the driver's. -/
def getVlanIfExist (d : VlanDriver) (vlanId : Nat) (s : Sys) :
    Except GoErr (Option Link) × Sys :=
  match nlLinkList s with
  | (.error e, s1) => (.error e, s1)
  | (.ok links, s1) =>
    (.ok (links.find? (vlanMatch vlanId d.vlanParentIndex)), s1)

/-- getVlanMaster: for a vlan device, resolve its master; report none
when unenslaved or when the master is not a bridge. -/
def getVlanMaster (link : Link) (s : Sys) : Except GoErr (Option Link) × Sys :=
  match link.kind with
  | .vlan _ _ =>
    if link.master = 0 then (.ok none, s)
    else
      match nlLinkByIndex link.master s with
      | (.error e, s1) => (.error e, s1)
      | (.ok m, s1) =>
        match m.kind with
        | .bridge => (.ok (some m), s1)
        | _ => (.ok none, s1)
  | _ => (.error (.msg "not a vlan device"), s)

/-- d.getOrCreateVlanDevice: discovery first (adopting the found index),
otherwise obtain-or-create by name, bring the new device up, and record
its index. -/
def getOrCreateVlanDevice (d : VlanDriver) (vlanId : Nat) (s : Sys) :
    Except GoErr Link × VlanDriver × Sys :=
  match getVlanIfExist d vlanId s with
  | (.error e, s1) => (.error e, d, s1)
  | (.ok (some link), s1) => (.ok link, { d with DeviceIndex := link.index }, s1)
  | (.ok none, s1) =>
    let vlanIfName := d.conf.VlanNamePref ++ Nat.repr vlanId
    match getOrCreateDevice vlanIfName (fun s0 =>
        match nlLinkAdd { name := vlanIfName, index := 0,
                          kind := .vlan vlanId d.vlanParentIndex, master := 0,
                          up := false, hw := "", addrs := [] } s0 with
        | (.error _, sa) => (.error (.msg ("Failed to add vlan device " ++ vlanIfName)), sa)
        | (.ok _, sa) => (.ok (), sa)) s1 with
    | (.error e, s2) => (.error e, d, s2)
    | (.ok vlan, s2) =>
      match nlLinkSetUp vlan s2 with
      | (.error _, s3) =>
        (.error (.msg ("Failed to set up vlan device " ++ vlanIfName)), d, s3)
      | (.ok _, s3) => (.ok vlan, { d with DeviceIndex := vlan.index }, s3)

/-- d.CreateBridgeAndVlanDevice: tag 0 short-circuits to the bridge
name; otherwise obtain-or-create the vlan device, reuse an existing
bridge master, or create/enslave/bring up the per-tag bridge. -/
def CreateBridgeAndVlanDevice (d : VlanDriver) (vlanId : Nat) (s : Sys) :
    Except GoErr String × VlanDriver × Sys :=
  if vlanId = 0 then (.ok (BridgeNameForVlan d vlanId), d, s)
  else
    match getOrCreateVlanDevice d vlanId s with
    | (.error e, d1, s1) => (.error e, d1, s1)
    | (.ok vlan, d1, s1) =>
      match getVlanMaster vlan s1 with
      | (.error e, s2) => (.error e, d1, s2)
      | (.ok (some master), s2) => (.ok master.name, d1, s2)
      | (.ok none, s2) =>
        let bridgeIfName := d1.conf.BridgeNamePref ++ Nat.repr vlanId
        match getOrCreateBridge bridgeIfName none s2 with
        | (.error e, s3) => (.error e, d1, s3)
        | (.ok bridge, s3) =>
          let enslaved : Except GoErr Unit × Sys :=
            if vlan.master ≠ bridge.index then
              match nlLinkSetMaster vlan bridgeIfName s3 with
              | (.error _, sa) =>
                (.error (.msg ("Failed to add vlan device " ++ vlan.name ++
                  " to bridge device " ++ bridgeIfName)), sa)
              | (.ok _, sa) => (.ok (), sa)
            else (.ok (), s3)
          match enslaved with
          | (.error e, s4) => (.error e, d1, s4)
          | (.ok _, s4) =>
            match nlLinkSetUp bridge s4 with
            | (.error _, s5) =>
              (.error (.msg ("Failed to set up bridge device " ++ bridgeIfName)), d1, s5)
            | (.ok _, s5) =>
              if PureMode d1 then
                match utilSetProxyArp bridgeIfName s5 with
                | (.error e, s6) => (.error e, d1, s6)
                | (.ok _, s6) => (.ok bridgeIfName, d1, s6)
              else (.ok bridgeIfName, d1, s5)

/-- d.MaybeCreateVlanDevice: tag 0 is a no-op; otherwise just
obtain-or-create the vlan sub-interface. -/
def MaybeCreateVlanDevice (d : VlanDriver) (vlanId : Nat) (s : Sys) :
    Except GoErr Unit × VlanDriver × Sys :=
  if vlanId = 0 then (.ok (), d, s)
  else
    match getOrCreateVlanDevice d vlanId s with
    | (.error e, d1, s1) => (.error e, d1, s1)
    | (.ok _, d1, s1) => (.ok (), d1, s1)

/-- Run of the deferred compensations of Init's migration section, in
LIFO order. Go registers, inside `for i := range filteredAddr`, one
deferred closure per successfully deleted address; every closure
captures the single shared loop variable `i`, so when they run they all
re-add `filteredAddr[i]` for the value `i` holds at unwind time
(`iShared`), not the index current at registration. After the address
closures, the route closure (registered first, hence run last) re-adds
every snapshotted route. All compensation errors are discarded. -/
def initUnwind (device : Link) (arr : List Addr) (iShared nDefers : Nat)
    (rs : List Route) (s : Sys) : Sys :=
  let s1 := (List.range nDefers).foldl
    (fun acc _ => (nlAddrAdd device (arr.getD iShared default) acc).2) s
  rs.foldl (fun acc r => (nlRouteAdd r acc).2) s1

/-- Init's address-migration loop (`for i := range filteredAddr`):
delete each non-loopback address from the device, register the
compensating re-add, clear the label, add the address to the bridge
("file exists" tolerated). On failure the registered compensations run
via `initUnwind` and the wrapped error is returned. Returns the final
address array (labels cleared) on success. -/
def initAddrLoop (deviceName : String) (device bri : Link) (briName : String)
    (rs : List Route) (arr : List Addr) (i fuel : Nat) (s : Sys) :
    Except GoErr (List Addr) × Sys :=
  match fuel with
  | 0 => (.ok arr, s)
  | Nat.succ fuel' =>
    let a := arr.getD i default
    match nlAddrDel device a s with
    | (.error _, s1) =>
      (.error (.msg ("Failed to remove v4address from device " ++ deviceName)),
       initUnwind device arr i i rs s1)
    | (.ok _, s1) =>
      let a2 : Addr := { a with label := "" }
      let arr2 := arr.set i a2
      match nlAddrAdd bri a2 s1 with
      | (.error e, s2) =>
        if isFileExists e then
          initAddrLoop deviceName device bri briName rs arr2 (i + 1) fuel' s2
        else
          (.error (.msg ("Failed to add v4address to bridge device " ++ briName)),
           initUnwind device arr2 i (i + 1) rs s2)
      | (.ok _, s2) => initAddrLoop deviceName device bri briName rs arr2 (i + 1) fuel' s2

/-- Init's route re-add loop: each snapshotted route is re-added with
the bridge's link index, preserving gw/dst/src/scope; "file exists" is
tolerated. On failure the compensations run (all address closures see
the shared index at its final value). -/
def initRouteLoop (device : Link) (briIndex : Nat) (arr : List Addr)
    (rsAll rsRemaining : List Route) (s : Sys) : Except GoErr Unit × Sys :=
  match rsRemaining with
  | [] => (.ok (), s)
  | r :: rest =>
    let newRoute : Route := { gw := r.gw, linkIndex := briIndex, dst := r.dst,
                              src := r.src, scope := r.scope }
    match nlRouteAdd newRoute s with
    | (.error e, s1) =>
      if isFileExists e then initRouteLoop device briIndex arr rsAll rest s1
      else
        (.error (.msg "failed to add route"),
         initUnwind device arr (arr.length - 1) arr.length rsAll s1)
    | (.ok _, s1) => initRouteLoop device briIndex arr rsAll rest s1

/-- Init after the parent interface is resolved: mode handling, the
default-bridge check for address-less devices, and the address
migration algorithm. The driver's indices are not modified past
resolution, so this part returns only the outcome and kernel state. -/
def initPostResolve (d : VlanDriver) (device : Link) (s : Sys) :
    Except GoErr Unit × Sys :=
  if MacVlanMode d || IPVlanMode d then (.ok (), s)
  else if PureMode d then
    match utilUnSetArpIgnore "all" s with
    | (.error e, s1) => (.error e, s1)
    | (.ok _, s1) =>
      match utilUnSetArpIgnore d.conf.Device s1 with
      | (.error e, s2) => (.error e, s2)
      | (.ok _, s2) =>
        match utilSetProxyArp d.conf.Device s2 with
        | (.error e, s3) => (.error e, s3)
        | (.ok _, s3) =>
          match utilEnableNonlocalBind s3 with
          | (.error e, s4) => (.error e, s4)
          | (.ok _, s4) => (.ok (), s4)
  else if d.conf.DisableDefaultBridge = some true then (.ok (), s)
  else
    match nlAddrList device s with
    | (.error _, s1) => (.error (.msg "Errror getting ipv4 address"), s1)
    | (.ok v4Addr, s1) =>
      let filteredAddr := FilterLoopbackAddr v4Addr
      if filteredAddr.isEmpty then
        match nlLinkByName d.conf.DefaultBridgeName s1 with
        | (.error e, s2) =>
          (.error (.msg ("Error getting bri device " ++ d.conf.DefaultBridgeName ++
            ": " ++ renderErr e)), s2)
        | (.ok bri, s2) =>
          if bri.index ≠ device.master then
            (.error (.msg ("No available address found on device " ++ d.conf.Device)), s2)
          else (.ok (), s2)
      else
        match getOrCreateBridge d.conf.DefaultBridgeName (some device.hw) s1 with
        | (.error e, s2) => (.error e, s2)
        | (.ok bri, s2) =>
          match nlLinkSetUp bri s2 with
          | (.error _, s3) =>
            (.error (.msg ("Failed to set up bridge device " ++
              d.conf.DefaultBridgeName)), s3)
          | (.ok _, s3) =>
            match nlRouteList device.index s3 with
            | (.error _, s4) =>
              (.error (.msg ("Failed to list route of device " ++ device.name)), s4)
            | (.ok rs, s4) =>
              match initAddrLoop d.conf.Device device bri d.conf.DefaultBridgeName rs
                  filteredAddr 0 filteredAddr.length s4 with
              | (.error e, s5) => (.error e, s5)
              | (.ok arr, s5) =>
                match nlLinkSetMaster device d.conf.DefaultBridgeName s5 with
                | (.error _, s6) =>
                  (.error (.msg ("Failed to add device " ++ d.conf.Device ++
                    " to bridge device " ++ d.conf.DefaultBridgeName)),
                   initUnwind device arr (arr.length - 1) arr.length rs s6)
                | (.ok _, s6) =>
                  match initRouteLoop device bri.index arr rs rs s6 with
                  | (.error e, s7) => (.error e, s7)
                  | (.ok _, s7) => (.ok (), s7)

/-- d.Init(): resolve the configured device (recording its index as
both DeviceIndex and tentative vlanParentIndex, following one level of
vlan-parent indirection), then run the mode-dependent setup. -/
def InitRun (d : VlanDriver) (s : Sys) : Except GoErr Unit × VlanDriver × Sys :=
  match nlLinkByName d.conf.Device s with
  | (.error e, s1) =>
    (.error (.msg ("Error getting device " ++ d.conf.Device ++ ": " ++ renderErr e)), d, s1)
  | (.ok device, s1) =>
    let pIdx : Nat :=
      match device.kind with
      | .vlan _ parent => parent
      | _ => device.index
    let d2 : VlanDriver := { d with DeviceIndex := device.index,
                                    vlanParentIndex := pIdx }
    let r := initPostResolve d2 device s1
    (r.1, d2, r.2)

/-- A port mapping: host port, pod port, protocol, and (filled in from
the delegate result) the pod IP. -/
structure Port where
  hostPort : Nat
  podPort : Nat
  protocol : String
  podIP : String
deriving DecidableEq, Repr

/-- The delegate's IP4 field: the address, which To4 converts to a
usable IPv4 or reports as invalid (none). -/
structure IPConf where
  to4 : Option String
deriving DecidableEq, Repr

/-- A CNI allocation result as the dispatcher reads it (result.IP4 may
be absent). -/
structure CniResult where
  ip4 : Option IPConf
deriving DecidableEq, Repr

/-- json.Marshal of a result, as the response body. -/
def marshalResult (r : CniResult) : String :=
  match r.ip4 with
  | none => "ip4:none"
  | some c => "ip4:" ++ c.to4.getD "invalid"

/-- One CNI invocation as the dispatcher sees it. -/
structure PodRequest where
  command : String
  containerID : String
  ports : String
deriving DecidableEq, Repr

/-- Dispatcher-visible external state: the persisted port-spec store
(keyed by container ID) and the installed port mappings. -/
structure GalaxySt where
  store : List (String × String)
  installed : List Port
deriving DecidableEq, Repr

/-- Split a character list on a separator character. -/
def splitOnChar (c : Char) : List Char → List (List Char)
  | [] => [[]]
  | x :: xs =>
    let r := splitOnChar c xs
    if x = c then [] :: r
    else
      match r with
      | [] => [[x]]
      | y :: ys => (x :: y) :: ys

/-- Accumulate decimal digits into a number; none on a non-digit. -/
def digitsAux : List Char → Nat → Option Nat
  | [], acc => some acc
  | c :: cs, acc =>
    if c.isDigit then digitsAux cs (acc * 10 + (c.toNat - 48)) else none

/-- Parse a non-empty decimal numeral. -/
def parseNatChars (cs : List Char) : Option Nat :=
  match cs with
  | [] => none
  | _ => digitsAux cs 0

/-- Modelled from the spec: k8s.ParsePorts (code not under src/) — the
pure port-spec transform; "" parses to no ports, "8080:80/tcp" to the
mapping (8080, 80, tcp). -/
def ParsePorts (s : String) : Except GoErr (List Port) :=
  if s = "" then .ok []
  else
    match splitOnChar '/' s.toList with
    | [hp, proto] =>
      match splitOnChar ':' hp with
      | [h, p] =>
        match parseNatChars h, parseNatChars p with
        | some a, some b =>
          .ok [{ hostPort := a, podPort := b, protocol := String.mk proto, podIP := "" }]
        | _, _ => .error (.msg ("invalid port spec " ++ s))
      | _ => .error (.msg ("invalid port spec " ++ s))
    | _ => .error (.msg ("invalid port spec " ++ s))

/-- Modelled from the spec: k8s.SavePort (code not under src/) — the
opaque store's save(containerID, spec), persisting the raw spec keyed
by container ID. -/
def SavePort (cid portStr : String) (st : GalaxySt) : GalaxySt :=
  { st with store := (cid, portStr) :: st.store.filter (fun p => !decide (p.1 = cid)) }

/-- Modelled from the spec: k8s.ConsumePort (code not under src/) — the
opaque store's consume(containerID) -> spec | not-found, removing the
entry it returns. -/
def ConsumePort (cid : String) (st : GalaxySt) : Except GoErr (List Port) × GalaxySt :=
  match st.store.find? (fun p => decide (p.1 = cid)) with
  | none => (.error .notExist, st)
  | some entry =>
    match ParsePorts entry.2 with
    | .error e => (.error e, st)
    | .ok ports =>
      (.ok ports, { st with store := st.store.filter (fun p => !decide (p.1 = cid)) })

/-- setupPortMapping: parse the port spec, persist it keyed by
container ID, then validate the delegate's IPv4 (failing loudly when it
is absent or invalid), fill the pod IP into the mappings and install
them. Persistence happens before the IPv4 validation. -/
def setupPortMapping (portStr containerID : String) (result : CniResult)
    (st : GalaxySt) : Option GoErr × GalaxySt :=
  match ParsePorts portStr with
  | .error e => (some e, st)
  | .ok ports =>
    let st1 := SavePort containerID portStr st
    match result.ip4 with
    | none => (some (.msg "CNI plugin reported no IPv4 address"), st1)
    | some conf =>
      match conf.to4 with
      | none => (some (.msg "CNI plugin reported an invalid IPv4 address"), st1)
      | some ip4 =>
        let ports2 := ports.map (fun p => { p with podIP := ip4 })
        if ports2.length ≠ 0 then
          (none, { st1 with installed := st1.installed ++ ports2 })
        else (none, st1)

/-- cleanupPortMapping: consume any persisted mapping for the container
ID (absence is not an error) and clean the installed mappings when some
were found. -/
def cleanupPortMapping (containerID : String) (st : GalaxySt) : Option GoErr × GalaxySt :=
  match ConsumePort containerID st with
  | (.error e, st1) =>
    match e with
    | .notExist => (none, st1)
    | _ => (some (.msg "failed to read ports"), st1)
  | (.ok ports, st1) =>
    if ports.length ≠ 0 then
      (none, { st1 with installed := st1.installed.filter (fun p => !ports.contains p) })
    else (none, st1)

/-- g.requestFunc: dispatch one request. The Backend Delegate is the
spec's black box (request) -> (result, error): its outcome for ADD
(`addRes`, where `ok none` is "no error, nil result") and for DEL
(`delRes`) are inputs. ADD marshals a non-nil result and runs
setupPortMapping; DEL runs cleanupPortMapping after a successful
teardown; unknown commands fail with no side effects. -/
def requestFunc (req : PodRequest) (addRes : Except GoErr (Option CniResult))
    (delRes : Option GoErr) (st : GalaxySt) :
    (Option String × Option GoErr) × GalaxySt :=
  if req.command = "ADD" then
    match addRes with
    | .error e => ((none, some e), st)
    | .ok none => ((none, none), st)
    | .ok (some result) =>
      let data := some (marshalResult result)
      let r := setupPortMapping req.ports req.containerID result st
      ((data, r.1), r.2)
  else if req.command = "DEL" then
    match delRes with
    | some e => ((none, some e), st)
    | none =>
      let r := cleanupPortMapping req.containerID st
      ((none, r.1), r.2)
  else ((none, some (.msg ("unkown command " ++ req.command))), st)

/-! Concrete fixtures used by the claim theorems. -/

/-- First IPv4 address on the example device. -/
def egAddr0 : Addr := { ip := "10.0.0.5", label := "eth1", loopback := false }

/-- Second IPv4 address on the example device. -/
def egAddr1 : Addr := { ip := "10.0.0.6", label := "eth1", loopback := false }

/-- Example physical device carrying two non-loopback IPv4 addresses. -/
def egEth1 : Link := { name := "eth1", index := 1, kind := .physical, master := 0,
                       up := true, hw := "aa", addrs := [egAddr0, egAddr1] }

/-- Example bridge-mode configuration with the default names. -/
def egConf : NetConf := { Device := "eth1", Switch := "", DisableDefaultBridge := none,
                          DefaultBridgeName := "docker", BridgeNamePref := "docker",
                          VlanNamePref := "vlan" }

/-- Example driver before Init. -/
def egDriver : VlanDriver := { conf := egConf, vlanParentIndex := 0, DeviceIndex := 0 }

/-- Kernel state for the rollback scenario: the device with two
addresses, and an injected failure at call 9, which is the AddrDel of
the second address (calls 0..8 are the lookup, the address list, the
three bridge obtain-or-create calls, the bridge bring-up, the route
snapshot, and the first address's delete and bridge-add). -/
def c1Sys : Sys := { table := [egEth1], routes := [], trace := [], faults := [9], calls := 0 }

/-- C1: the claim says every injected failure at step k reverts all
previously performed address moves (each already-deleted address is
re-added to the device) before the error is returned. The code's
deferred compensations capture the shared loop variable, so when the
delete of the second address fails, the single registered compensation
re-adds `filteredAddr[1]` (the address that was never deleted, still
present) instead of the deleted `filteredAddr[0]`: Init returns the
error with 10.0.0.5 still missing from eth1 (it sits on the bridge),
and the only compensating call attempted was for 10.0.0.6. -/
theorem c1_rollback_not_restored :
    (InitRun egDriver c1Sys).1 =
      .error (.msg "Failed to remove v4address from device eth1")
    ∧ (InitRun egDriver c1Sys).2.2.table =
      [{ name := "eth1", index := 1, kind := .physical, master := 0, up := true,
         hw := "aa", addrs := [{ ip := "10.0.0.6", label := "eth1", loopback := false }] },
       { name := "docker", index := 2, kind := .bridge, master := 0, up := true,
         hw := "aa", addrs := [{ ip := "10.0.0.5", label := "", loopback := false }] }]
    ∧ (InitRun egDriver c1Sys).2.2.trace =
      [Ev.linkAdd "docker", Ev.linkSetUp "docker", Ev.routeList,
       Ev.addrDel "eth1" "10.0.0.5", Ev.addrAdd "docker" "10.0.0.5",
       Ev.addrDel "eth1" "10.0.0.6", Ev.addrAdd "eth1" "10.0.0.6"] := by
  refine ⟨?_, ?_, ?_⟩ <;> decide

/-- Example device carrying one address, for the ordering scenario. -/
def egEth1b : Link := { name := "eth1", index := 1, kind := .physical, master := 0,
                        up := true, hw := "aa", addrs := [egAddr0] }

/-- One IPv4 route on the example device. -/
def egRoute : Route := { gw := "10.0.0.1", linkIndex := 1, dst := "default", src := "",
                         scope := 0 }

/-- Fault-free kernel state for the ordering scenario. -/
def c3Sys : Sys := { table := [egEth1b], routes := [egRoute], trace := [], faults := [],
                     calls := 0 }

/-- C3 counterexample: the claim says bringing the bridge up is the
final step, after the route snapshot, the address moves, the
enslavement and the route re-adds. On this successful fault-free run
the trace shows the bridge bring-up as the second call, before the
route snapshot, and the last call is the route re-add. -/
theorem c3_bridge_up_not_last :
    (InitRun egDriver c3Sys).1 = .ok ()
    ∧ (InitRun egDriver c3Sys).2.2.trace =
      [Ev.linkAdd "docker", Ev.linkSetUp "docker", Ev.routeList,
       Ev.addrDel "eth1" "10.0.0.5", Ev.addrAdd "docker" "10.0.0.5",
       Ev.linkSetMaster "eth1" "docker", Ev.routeAdd 2]
    ∧ (InitRun egDriver c3Sys).2.2.trace.getLast? = some (Ev.routeAdd 2)
    ∧ (InitRun egDriver c3Sys).2.2.trace.getLast? ≠ some (Ev.linkSetUp "docker") := by
  refine ⟨?_, ?_, ?_, ?_⟩ <;> decide

/-- ADD request for the persistence counterexample. -/
def c2Req : PodRequest := { command := "ADD", containerID := "ctn1", ports := "8080:80/tcp" }

/-- Delegate result with no IP4 section at all. -/
def c2Res : CniResult := { ip4 := none }

/-- C2 counterexample: the claim says that after an ADD whose delegate
result has no usable IPv4 no entry is persisted for the container ID.
The code calls SavePort before the IPv4 validation, so this ADD fails
with "no IPv4 address" yet the entry for ctn1 is persisted. -/
theorem c2_entry_persisted_without_ipv4 :
    (requestFunc c2Req (.ok (some c2Res)) none ⟨[], []⟩).1.2 =
      some (.msg "CNI plugin reported no IPv4 address")
    ∧ (requestFunc c2Req (.ok (some c2Res)) none ⟨[], []⟩).2.store =
      [("ctn1", "8080:80/tcp")] := by
  exact ⟨by decide, by decide⟩

/-- C6: BridgeNameForVlan returns "" for tag 0 in pure mode, the
configured default bridge name for tag 0 in any other mode, and
prefix+decimal tag for every non-zero tag regardless of mode. -/
theorem c6_bridge_name_for_vlan (d : VlanDriver) (t : Nat) :
    (PureMode d = true → BridgeNameForVlan d 0 = "")
    ∧ (PureMode d = false → BridgeNameForVlan d 0 = d.conf.DefaultBridgeName)
    ∧ (t ≠ 0 → BridgeNameForVlan d t = d.conf.BridgeNamePref ++ Nat.repr t) := by
  refine ⟨fun h => ?_, fun h => ?_, fun h => ?_⟩ <;> simp [BridgeNameForVlan, h]

/-- Pure-mode variant of the example configuration. -/
def c6PureDriver : VlanDriver :=
  { conf := { egConf with Switch := "pure" }, vlanParentIndex := 0, DeviceIndex := 0 }

/-- Witness for C6 at concrete configurations and tags. -/
theorem c6_bridge_name_for_vlan_witness :
    BridgeNameForVlan c6PureDriver 0 = ""
    ∧ BridgeNameForVlan egDriver 0 = "docker"
    ∧ BridgeNameForVlan egDriver 7 = "docker7" :=
  ⟨(c6_bridge_name_for_vlan c6PureDriver 7).1 (by decide),
   (c6_bridge_name_for_vlan egDriver 7).2.1 (by decide),
   (c6_bridge_name_for_vlan egDriver 7).2.2 (by decide)⟩

/-- C7: VLAN tag 0 never causes device creation: with tag 0,
CreateBridgeAndVlanDevice returns BridgeNameForVlan(0) and
MaybeCreateVlanDevice returns success, both leaving the driver and the
whole kernel state (table, routes, trace, call counter) untouched. -/
theorem c7_tag_zero_no_creation (d : VlanDriver) (s : Sys) :
    CreateBridgeAndVlanDevice d 0 s = (.ok (BridgeNameForVlan d 0), d, s)
    ∧ MaybeCreateVlanDevice d 0 s = (.ok (), d, s) := by
  constructor <;> rfl

/-- C9: Init fails with a descriptive error and records nothing when
the configured device is absent; when it resolves, its index is
recorded as both DeviceIndex and tentative vlanParentIndex, the latter
replaced by the vlan parent's index (one level) when the device is
itself a vlan sub-interface — whatever the rest of Init then does. -/
theorem c9_parent_resolution (d : VlanDriver) (s : Sys)
    (hnf : s.calls ∉ s.faults) :
    (LinkByNameT s.table d.conf.Device = none →
      InitRun d s =
        (.error (.msg ("Error getting device " ++ d.conf.Device ++ ": " ++ "Link not found")),
         d, { s with calls := s.calls + 1 }))
    ∧ (∀ l, LinkByNameT s.table d.conf.Device = some l →
        (InitRun d s).2.1.DeviceIndex = l.index
        ∧ (InitRun d s).2.1.vlanParentIndex =
            (match l.kind with | .vlan _ p => p | _ => l.index)) := by
  constructor
  · intro h
    simp [InitRun, nlLinkByName, hnf, h, renderErr]
  · intro l h
    simp only [InitRun, nlLinkByName, hnf, Bool.false_eq_true, if_false, h]
    cases hk : l.kind <;> simp [hk]

/-- Driver whose configured device name resolves to nothing. -/
def c9NoDevDriver : VlanDriver :=
  { conf := { egConf with Device := "eth9" }, vlanParentIndex := 0, DeviceIndex := 0 }

/-- Witness for C9: the absent-device error leaves the driver
unrecorded, and a resolved device records index 1. -/
theorem c9_parent_resolution_witness :
    InitRun c9NoDevDriver c3Sys =
      (.error (.msg ("Error getting device " ++ "eth9" ++ ": Link not found")),
       c9NoDevDriver, { c3Sys with calls := c3Sys.calls + 1 })
    ∧ (InitRun egDriver c3Sys).2.1.DeviceIndex = egEth1b.index :=
  ⟨(c9_parent_resolution c9NoDevDriver c3Sys (by decide)).1 (by decide),
   ((c9_parent_resolution egDriver c3Sys (by decide)).2 egEth1b (by decide)).1⟩

/-- C10: an ADD whose delegate returns no error but a nil result yields
success with an empty body and performs no port-mapping work at all:
the store and the installed mappings are untouched, whatever the
request's port spec. -/
theorem c10_nil_result_success_noop (req : PodRequest) (st : GalaxySt)
    (h : req.command = "ADD") :
    requestFunc req (.ok none) none st = ((none, none), st) := by
  simp [requestFunc, h]

/-- Witness for C10 at a concrete request carrying a non-empty port
spec. -/
theorem c10_nil_result_success_noop_witness :
    requestFunc c2Req (.ok none) none ⟨[], []⟩ = ((none, none), ⟨[], []⟩) :=
  c10_nil_result_success_noop c2Req ⟨[], []⟩ rfl

/-- After filtering out a container ID, no entry for it can be found. -/
theorem find_after_filter_none (cid : String) (l : List (String × String)) :
    (l.filter (fun p => !decide (p.1 = cid))).find? (fun p => decide (p.1 = cid)) = none := by
  rw [List.find?_eq_none]
  intro x hx
  rcases List.mem_filter.mp hx with ⟨_, h2⟩
  simpa using h2

/-- A constantly-false search finds nothing. -/
theorem find_false_none {A : Type} (l : List A) : l.find? (fun _ => false) = none := by
  rw [List.find?_eq_none]
  intro x hx
  simp

/-- Idempotence of the teardown's mapping cleanup: a second cleanup for
the same container ID never errors after a first error-free one. -/
theorem cleanup_again_ok (cid : String) (st : GalaxySt)
    (h : (cleanupPortMapping cid st).1 = none) :
    (cleanupPortMapping cid (cleanupPortMapping cid st).2).1 = none := by
  cases hf : st.store.find? (fun p => decide (p.1 = cid)) with
  | none => simp [cleanupPortMapping, ConsumePort, hf]
  | some entry =>
    cases hp : ParsePorts entry.2 with
    | error e =>
      cases e with
      | notExist => simp [cleanupPortMapping, ConsumePort, hf, hp]
      | injected => simp [cleanupPortMapping, ConsumePort, hf, hp] at h
      | alreadyExists => simp [cleanupPortMapping, ConsumePort, hf, hp] at h
      | msg s => simp [cleanupPortMapping, ConsumePort, hf, hp] at h
    | ok ports =>
      by_cases hl : ports.length = 0 <;>
        simp [cleanupPortMapping, ConsumePort, hf, hp, hl, find_after_filter_none,
          find_false_none]

/-- C8: with a successful backend teardown, a DEL whose first run
reported no error can be repeated: the second DEL for the same
container ID (whose mapping the first call consumed) also reports no
error, since absence of a persisted mapping is not an error. -/
theorem c8_del_idempotent (req : PodRequest) (st : GalaxySt)
    (hc : req.command = "DEL")
    (h1 : (requestFunc req (.ok none) none st).1.2 = none) :
    (requestFunc req (.ok none) none (requestFunc req (.ok none) none st).2).1.2 = none := by
  have key1 : ∀ st0 : GalaxySt, (requestFunc req (.ok none) none st0).1.2 =
      (cleanupPortMapping req.containerID st0).1 := by
    intro st0
    simp [requestFunc, hc]
  have key2 : ∀ st0 : GalaxySt, (requestFunc req (.ok none) none st0).2 =
      (cleanupPortMapping req.containerID st0).2 := by
    intro st0
    simp [requestFunc, hc]
  rw [key1] at h1
  rw [key1, key2]
  exact cleanup_again_ok req.containerID st h1

/-- Concrete store holding one consumed-and-parseable entry. -/
def c8St : GalaxySt := { store := [("ctn1", "8080:80/tcp")], installed := [] }

/-- DEL request for the idempotence witness. -/
def c8Req : PodRequest := { command := "DEL", containerID := "ctn1", ports := "" }

/-- Witness for C8: two DELs in a row on a store holding the entry, no
error the second time. -/
theorem c8_del_idempotent_witness :
    (requestFunc c8Req (.ok none) none (requestFunc c8Req (.ok none) none c8St).2).1.2 =
      none :=
  c8_del_idempotent c8Req c8St rfl (by decide)

/-- C2 amended: an entry is persisted for the container ID after every
ADD whose delegate returned a non-nil result and whose port spec
parses, regardless of IPv4 validity or of the spec being empty —
SavePort runs before the IPv4 validation. -/
theorem c2_persisted_after_parseable_add (req : PodRequest) (r : CniResult)
    (st : GalaxySt) (ps : List Port)
    (hc : req.command = "ADD") (hp : ParsePorts req.ports = .ok ps) :
    (requestFunc req (.ok (some r)) none st).2.store.find?
      (fun p => decide (p.1 = req.containerID)) = some (req.containerID, req.ports) := by
  simp only [requestFunc, hc, reduceIte, setupPortMapping, hp, SavePort]
  cases hi : r.ip4 with
  | none => simp [hi]
  | some conf =>
    cases ht : conf.to4 with
    | none => simp [hi, ht]
    | some ip4 =>
      by_cases hl : ps = [] <;> simp [hi, ht, hl]

/-- Witness for C2's amended statement: the counterexample input (no
usable IPv4, non-empty spec) still persists the entry. -/
theorem c2_persisted_after_parseable_add_witness :
    (requestFunc c2Req (.ok (some c2Res)) none ⟨[], []⟩).2.store.find?
      (fun p => decide (p.1 = c2Req.containerID)) = some ("ctn1", "8080:80/tcp") :=
  c2_persisted_after_parseable_add c2Req c2Res ⟨[], []⟩
    [{ hostPort := 8080, podPort := 80, protocol := "tcp", podIP := "" }] rfl (by decide)

/-- A link matched by the discovery predicate is a vlan sub-interface
with exactly the scanned-for tag and parent. -/
theorem vlanMatch_eq (vlanId parent : Nat) (l : Link)
    (h : vlanMatch vlanId parent l = true) : l.kind = .vlan vlanId parent := by
  unfold vlanMatch at h
  cases hk : l.kind <;> rw [hk] at h <;> simp_all

/-- C5: for a non-zero tag whose vlan sub-interface (as the discovery
scan finds it) already has a Bridge master, CreateBridgeAndVlanDevice
returns that bridge's name and performs no device mutation: the final
kernel state differs only by the two read calls consumed — same table,
same routes, same (empty) added trace. -/
theorem c5_bridge_master_short_circuit (d : VlanDriver) (vid : Nat) (s : Sys) (v m : Link)
    (hz : vid ≠ 0)
    (hnf : s.faults = [])
    (hv : s.table.find? (vlanMatch vid d.vlanParentIndex) = some v)
    (hm : v.master ≠ 0)
    (hb : LinkByIndexT s.table v.master = some m)
    (hk : m.kind = .bridge) :
    CreateBridgeAndVlanDevice d vid s =
      (.ok m.name, { d with DeviceIndex := v.index }, { s with calls := s.calls + 2 }) := by
  have hvk : v.kind = .vlan vid d.vlanParentIndex :=
    vlanMatch_eq _ _ _ (List.find?_some hv)
  have h1 : getVlanIfExist d vid s = (.ok (some v), { s with calls := s.calls + 1 }) := by
    simp [getVlanIfExist, nlLinkList, hnf, hv]
  have h2 : getOrCreateVlanDevice d vid s =
      (.ok v, { d with DeviceIndex := v.index }, { s with calls := s.calls + 1 }) := by
    simp [getOrCreateVlanDevice, h1]
  have hb' : List.find? (fun l => decide (l.index = v.master)) s.table = some m := hb
  have h3 : getVlanMaster v { s with calls := s.calls + 1 } =
      (.ok (some m), { s with calls := s.calls + 2 }) := by
    simp [getVlanMaster, hvk, hm, nlLinkByIndex, hnf, hb', hk, LinkByIndexT]
  simp [CreateBridgeAndVlanDevice, hz, h2, h3]

/-- Witness fixtures: a physical parent of index 1. -/
def egPhys : Link := { name := "eth1", index := 1, kind := .physical, master := 0,
                       up := true, hw := "aa", addrs := [] }

/-- Driver resolved onto the physical parent. -/
def egDrv1 : VlanDriver := { conf := egConf, vlanParentIndex := 1, DeviceIndex := 1 }

/-- A vlan sub-interface of tag 5 on parent 1, enslaved to index 3. -/
def c5Vlan : Link := { name := "vlan5", index := 2, kind := .vlan 5 1, master := 3,
                       up := true, hw := "", addrs := [] }

/-- The bridge of index 3 that c5Vlan belongs to. -/
def c5Bridge : Link := { name := "docker5", index := 3, kind := .bridge, master := 0,
                         up := true, hw := "", addrs := [] }

/-- Kernel state with the enslaved vlan device in place. -/
def c5Sys : Sys := { table := [egPhys, c5Vlan, c5Bridge], routes := [], trace := [],
                     faults := [], calls := 0 }

/-- Witness for C5 at the concrete topology. -/
theorem c5_bridge_master_short_circuit_witness :
    CreateBridgeAndVlanDevice egDrv1 5 c5Sys =
      (.ok c5Bridge.name, { egDrv1 with DeviceIndex := c5Vlan.index },
       { c5Sys with calls := c5Sys.calls + 2 }) :=
  c5_bridge_master_short_circuit egDrv1 5 c5Sys c5Vlan c5Bridge (by decide) rfl
    (by decide) (by decide) (by decide) rfl

/-- Every member's index is bounded by the table's maximum index. -/
theorem mem_le_maxIndex (l : Link) (t : List Link) (h : l ∈ t) : l.index ≤ maxIndex t := by
  induction t with
  | nil => cases h
  | cons a ts ih =>
    rcases List.mem_cons.mp h with h1 | h2
    · subst h1
      exact le_max_left _ _
    · exact le_trans (ih h2) (le_max_right _ _)

/-- The kernel-assigned fresh index differs from every existing one. -/
theorem mem_index_ne_fresh (l : Link) (t : List Link) (h : l ∈ t) :
    l.index ≠ freshIndex t := by
  have h1 := mem_le_maxIndex l t h
  unfold freshIndex
  omega

/-- Mapping a function that fixes every element is the identity. -/
theorem map_fix {A : Type} (t : List A) (f : A → A) (h : ∀ x ∈ t, f x = x) :
    t.map f = t := by
  induction t with
  | nil => rfl
  | cons a ts ih =>
    simp only [List.map_cons, h a (List.mem_cons_self a ts),
      ih (fun x hx => h x (List.mem_cons_of_mem a hx))]

/-- Fault-free discovery scan is the pure table scan. -/
theorem getVlanIfExist_nofault (d : VlanDriver) (vid : Nat) (s : Sys)
    (h : s.faults = []) :
    getVlanIfExist d vid s =
      (.ok (s.table.find? (vlanMatch vid d.vlanParentIndex)),
       { s with calls := s.calls + 1 }) := by
  simp [getVlanIfExist, nlLinkList, h]

/-- Fault-free obtain-or-create when discovery finds a matching vlan
device: adopt its index, mutate nothing. -/
theorem getOrCreateVlanDevice_found (d : VlanDriver) (vid : Nat) (s : Sys) (v : Link)
    (hnf : s.faults = [])
    (hdisc : s.table.find? (vlanMatch vid d.vlanParentIndex) = some v) :
    getOrCreateVlanDevice d vid s =
      (.ok v, { d with DeviceIndex := v.index }, { s with calls := s.calls + 1 }) := by
  simp [getOrCreateVlanDevice, getVlanIfExist_nofault, hnf, hdisc]

/-- Name of the vlan sub-interface the driver would create for a tag. -/
def vlanDevName (d : VlanDriver) (vid : Nat) : String :=
  d.conf.VlanNamePref ++ Nat.repr vid

/-- The vlan sub-interface the creation path adds (up-flag as given). -/
def createdVlan (d : VlanDriver) (vid : Nat) (t : List Link) (u : Bool) : Link :=
  { name := vlanDevName d vid, index := freshIndex t,
    kind := .vlan vid d.vlanParentIndex, master := 0, up := u, hw := "", addrs := [] }

/-- Kernel state after the fault-free creation path ran. -/
def sysAfterVlanCreate (d : VlanDriver) (vid : Nat) (s : Sys) : Sys :=
  { s with
    table := s.table ++ [createdVlan d vid s.table true],
    trace := s.trace ++ [Ev.linkAdd (vlanDevName d vid), Ev.linkSetUp (vlanDevName d vid)],
    calls := s.calls + 5 }

/-- Fault-free obtain-or-create when discovery finds nothing and the
name is free: one interface is created with the fresh index, brought
up, and recorded. -/
theorem getOrCreateVlanDevice_creates (d : VlanDriver) (vid : Nat) (s : Sys)
    (hnf : s.faults = [])
    (hdisc : s.table.find? (vlanMatch vid d.vlanParentIndex) = none)
    (hn : s.table.find? (fun l => decide (l.name = vlanDevName d vid)) = none) :
    getOrCreateVlanDevice d vid s =
      (.ok (createdVlan d vid s.table false), { d with DeviceIndex := freshIndex s.table },
       sysAfterVlanCreate d vid s) := by
  have hmap : s.table.map
      (fun x => if x.index = freshIndex s.table then { x with up := true } else x) =
      s.table := by
    apply map_fix
    intro x hx
    have hne := mem_index_ne_fresh x s.table hx
    simp [hne]
  have hn' : s.table.find?
      (fun l => decide (l.name = d.conf.VlanNamePref ++ Nat.repr vid)) = none := hn
  have hall : ∀ x ∈ s.table, ¬(x.name = d.conf.VlanNamePref ++ Nat.repr vid) := by
    intro x hx
    have hx2 := (List.find?_eq_none.mp hn') x hx
    simpa using hx2
  simp [getOrCreateVlanDevice, getVlanIfExist_nofault, hnf, hdisc, getOrCreateDevice,
    nlLinkByName, LinkByNameT, hn', hall, nlLinkAdd, nlLinkSetUp, List.find?_append,
    hmap, vlanDevName, createdVlan, sysAfterVlanCreate]

/-- C4: obtaining-or-creating the vlan sub-interface twice with the
same tag and the same resolved parent (no stale interface bearing the
vlan name) returns the same device index both times, mutates nothing on
the second call, and at most one interface is created by the first; the
second call's discovery scan itself finds a matching vlan device and
adopts its index. -/
theorem c4_vlan_obtain_idempotent (d : VlanDriver) (vid : Nat) (s : Sys)
    (hnf : s.faults = [])
    (hname : ∀ l ∈ s.table, l.name = vlanDevName d vid →
      l.kind = .vlan vid d.vlanParentIndex) :
    ∃ l1 d1 s1 l2 d2 s2,
      getOrCreateVlanDevice d vid s = (.ok l1, d1, s1)
      ∧ getOrCreateVlanDevice d1 vid s1 = (.ok l2, d2, s2)
      ∧ l2.index = l1.index
      ∧ d2.DeviceIndex = l1.index
      ∧ s2.table = s1.table
      ∧ s2.trace = s1.trace
      ∧ (s1.table = s.table ∨ s1.table = s.table ++ [createdVlan d vid s.table true])
      ∧ s1.table.find? (vlanMatch vid d.vlanParentIndex) = some l2
      ∧ l2.kind = .vlan vid d.vlanParentIndex := by
  cases hdisc : s.table.find? (vlanMatch vid d.vlanParentIndex) with
  | some v =>
    have h1 := getOrCreateVlanDevice_found d vid s v hnf hdisc
    have h2 : getOrCreateVlanDevice { d with DeviceIndex := v.index } vid
        { s with calls := s.calls + 1 } =
        (.ok v, { d with DeviceIndex := v.index }, { s with calls := s.calls + 1 + 1 }) :=
      getOrCreateVlanDevice_found _ vid _ v hnf hdisc
    exact ⟨v, { d with DeviceIndex := v.index }, { s with calls := s.calls + 1 },
      v, { d with DeviceIndex := v.index }, { s with calls := s.calls + 1 + 1 },
      h1, h2, rfl, rfl, rfl, rfl, Or.inl rfl, hdisc,
      vlanMatch_eq _ _ _ (List.find?_some hdisc)⟩
  | none =>
    have hn : s.table.find? (fun l => decide (l.name = vlanDevName d vid)) = none := by
      cases hlbn : s.table.find? (fun l => decide (l.name = vlanDevName d vid)) with
      | none => rfl
      | some lx =>
        exfalso
        have hpred := List.find?_some hlbn
        have hmem := List.mem_of_find?_eq_some hlbn
        have hnameEq : lx.name = vlanDevName d vid := by simpa using hpred
        have hkind := hname lx hmem hnameEq
        have hnone := (List.find?_eq_none.mp hdisc) lx hmem
        apply hnone
        unfold vlanMatch
        rw [hkind]
        simp
    have h1 := getOrCreateVlanDevice_creates d vid s hnf hdisc hn
    have hdisc2 : (s.table ++ [createdVlan d vid s.table true]).find?
        (vlanMatch vid d.vlanParentIndex) = some (createdVlan d vid s.table true) := by
      rw [List.find?_append, hdisc]
      simp [vlanMatch, createdVlan]
    have hnf2 : (sysAfterVlanCreate d vid s).faults = [] := by
      simp [sysAfterVlanCreate, hnf]
    have hdisc2' : (sysAfterVlanCreate d vid s).table.find?
        (vlanMatch vid ({ d with DeviceIndex := freshIndex s.table }).vlanParentIndex) =
        some (createdVlan d vid s.table true) := hdisc2
    have h2 := getOrCreateVlanDevice_found { d with DeviceIndex := freshIndex s.table }
      vid (sysAfterVlanCreate d vid s) (createdVlan d vid s.table true) hnf2 hdisc2'
    refine ⟨createdVlan d vid s.table false, { d with DeviceIndex := freshIndex s.table },
      sysAfterVlanCreate d vid s, createdVlan d vid s.table true, _, _,
      h1, h2, rfl, rfl, rfl, rfl, Or.inr rfl, hdisc2, rfl⟩

/-- Kernel state with only the bare physical parent. -/
def c4Sys : Sys := { table := [egPhys], routes := [], trace := [], faults := [], calls := 0 }

/-- Witness for C4 at the concrete bare-parent state with tag 5. -/
theorem c4_vlan_obtain_idempotent_witness :
    ∃ l1 d1 s1 l2 d2 s2,
      getOrCreateVlanDevice egDrv1 5 c4Sys = (.ok l1, d1, s1)
      ∧ getOrCreateVlanDevice d1 5 s1 = (.ok l2, d2, s2)
      ∧ l2.index = l1.index
      ∧ d2.DeviceIndex = l1.index
      ∧ s2.table = s1.table
      ∧ s2.trace = s1.trace
      ∧ (s1.table = c4Sys.table ∨
         s1.table = c4Sys.table ++ [createdVlan egDrv1 5 c4Sys.table true])
      ∧ s1.table.find? (vlanMatch 5 egDrv1.vlanParentIndex) = some l2
      ∧ l2.kind = .vlan 5 egDrv1.vlanParentIndex :=
  c4_vlan_obtain_idempotent egDrv1 5 c4Sys rfl (by decide)

/-- Calls Init's migration section may legitimately record after the
route snapshot: address moves, the enslavement, route re-adds. -/
def migrationStepEv : Ev → Prop
  | .addrDel _ _ => True
  | .addrAdd _ _ => True
  | .linkSetMaster _ _ => True
  | .routeAdd _ => True
  | _ => False

/-- nlLinkByName never records an event. -/
theorem nlLinkByName_trace (nm : String) (s : Sys) :
    (nlLinkByName nm s).2.trace = s.trace := by
  unfold nlLinkByName
  split
  · rfl
  · split <;> rfl

/-- Successful nlLinkByName returns the scanned entry, only bumping the
call counter. -/
theorem nlLinkByName_ok (nm : String) (s : Sys) (l : Link) (s' : Sys)
    (h : nlLinkByName nm s = (.ok l, s')) :
    LinkByNameT s.table nm = some l ∧ s' = { s with calls := s.calls + 1 } := by
  unfold nlLinkByName at h
  split at h
  · simp at h
  · split at h <;> simp_all

/-- Successful nlAddrList reads the device's current addresses, only
bumping the call counter. -/
theorem nlAddrList_ok (l : Link) (s : Sys) (v4 : List Addr) (s' : Sys)
    (h : nlAddrList l s = (.ok v4, s')) :
    (∃ da, LinkByIndexT s.table l.index = some da ∧ v4 = da.addrs)
    ∧ s' = { s with calls := s.calls + 1 } := by
  unfold nlAddrList at h
  split at h
  · simp at h
  · split at h <;> simp_all

/-- nlLinkSetUp records exactly the bring-up event. -/
theorem nlLinkSetUp_trace (l : Link) (s : Sys) :
    (nlLinkSetUp l s).2.trace = s.trace ++ [Ev.linkSetUp l.name] := by
  unfold nlLinkSetUp
  split <;> rfl

/-- nlRouteList records exactly the snapshot event. -/
theorem nlRouteList_trace (idx : Nat) (s : Sys) :
    (nlRouteList idx s).2.trace = s.trace ++ [Ev.routeList] := by
  unfold nlRouteList
  split <;> rfl

/-- nlAddrDel records exactly the delete event. -/
theorem nlAddrDel_trace (l : Link) (a : Addr) (s : Sys) :
    (nlAddrDel l a s).2.trace = s.trace ++ [Ev.addrDel l.name a.ip] := by
  unfold nlAddrDel
  split
  · rfl
  · split
    · rfl
    · split <;> rfl

/-- nlAddrAdd records exactly the add event. -/
theorem nlAddrAdd_trace (l : Link) (a : Addr) (s : Sys) :
    (nlAddrAdd l a s).2.trace = s.trace ++ [Ev.addrAdd l.name a.ip] := by
  unfold nlAddrAdd
  split
  · rfl
  · split
    · rfl
    · split <;> rfl

/-- nlRouteAdd records exactly the route-add event. -/
theorem nlRouteAdd_trace (r : Route) (s : Sys) :
    (nlRouteAdd r s).2.trace = s.trace ++ [Ev.routeAdd r.linkIndex] := by
  unfold nlRouteAdd
  split
  · rfl
  · split <;> rfl

/-- nlLinkSetMaster records exactly the enslave event. -/
theorem nlLinkSetMaster_trace (l : Link) (nm : String) (s : Sys) :
    (nlLinkSetMaster l nm s).2.trace = s.trace ++ [Ev.linkSetMaster l.name nm] := by
  unfold nlLinkSetMaster
  split
  · rfl
  · split <;> rfl

/-- nlLinkAdd records exactly the creation event. -/
theorem nlLinkAdd_trace (l : Link) (s : Sys) :
    (nlLinkAdd l s).2.trace = s.trace ++ [Ev.linkAdd l.name] := by
  unfold nlLinkAdd
  split
  · rfl
  · split <;> rfl

/-- Bridge creation records exactly the creation event. -/
theorem utilCreateBridgeDevice_trace (nm : String) (mac : Option String) (s : Sys) :
    (utilCreateBridgeDevice nm mac s).2.trace = s.trace ++ [Ev.linkAdd nm] := by
  unfold utilCreateBridgeDevice
  simpa using nlLinkAdd_trace _ s

/-- A successful obtain-or-create of a bridge returns an interface
bearing the requested name and records either nothing (reuse) or
exactly one creation event. -/
theorem getOrCreateBridge_ok (nm : String) (mac : Option String) (s : Sys)
    (bri : Link) (s' : Sys) (h : getOrCreateBridge nm mac s = (.ok bri, s')) :
    bri.name = nm ∧ (s'.trace = s.trace ∨ s'.trace = s.trace ++ [Ev.linkAdd nm]) := by
  unfold getOrCreateBridge getOrCreateDevice at h
  cases h1 : nlLinkByName nm s with
  | mk r1 s1 =>
    rw [h1] at h
    cases r1 with
    | ok l =>
      obtain ⟨hfind, hs1⟩ := nlLinkByName_ok nm s l s1 h1
      have hb : l = bri ∧ s1 = s' := by simpa using h
      obtain ⟨rfl, rfl⟩ := hb
      refine ⟨?_, Or.inl ?_⟩
      · simpa using List.find?_some hfind
      · rw [hs1]
    | error e =>
      simp only [] at h
      cases h2 : utilCreateBridgeDevice nm mac s1 with
      | mk r2 s2 =>
        rw [h2] at h
        cases r2 with
        | error e2 => simp at h
        | ok u =>
          simp only [] at h
          cases h3 : nlLinkByName nm s2 with
          | mk r3 s3 =>
            rw [h3] at h
            cases r3 with
            | error e3 => simp at h
            | ok l3 =>
              obtain ⟨hf3, hs3⟩ := nlLinkByName_ok nm s2 l3 s3 h3
              have hb : l3 = bri ∧ s3 = s' := by simpa using h
              obtain ⟨rfl, rfl⟩ := hb
              refine ⟨?_, Or.inr ?_⟩
              · simpa using List.find?_some hf3
              · have t1 : s1.trace = s.trace := by
                  have := nlLinkByName_trace nm s
                  rw [h1] at this
                  simpa using this
                have t2 : s2.trace = s1.trace ++ [Ev.linkAdd nm] := by
                  have := utilCreateBridgeDevice_trace nm mac s1
                  rw [h2] at this
                  simpa using this
                rw [hs3]
                simp [t2, t1]

/-- On success, the migration address loop records only address-move
events. -/
theorem initAddrLoop_ok_trace (dn : String) (dev bri : Link) (bn : String)
    (rs : List Route) :
    ∀ fuel arr i s arr' s',
      initAddrLoop dn dev bri bn rs arr i fuel s = (.ok arr', s') →
      ∃ evs, s'.trace = s.trace ++ evs ∧ ∀ e ∈ evs, migrationStepEv e := by
  intro fuel
  induction fuel with
  | zero =>
    intro arr i s arr' s' h
    unfold initAddrLoop at h
    have hb : arr = arr' ∧ s = s' := by simpa using h
    exact ⟨[], by simp [← hb.2], by simp⟩
  | succ f ih =>
    intro arr i s arr' s' h
    unfold initAddrLoop at h
    simp only [] at h
    cases hd : nlAddrDel dev (arr.getD i default) s with
    | mk r1 s1 =>
      rw [hd] at h
      have t1 : s1.trace = s.trace ++ [Ev.addrDel dev.name (arr.getD i default).ip] := by
        have := nlAddrDel_trace dev (arr.getD i default) s
        rw [hd] at this
        simpa using this
      cases r1 with
      | error e => simp at h
      | ok u =>
        simp only [] at h
        cases ha : nlAddrAdd bri ⟨(arr.getD i default).ip, "", (arr.getD i default).loopback⟩ s1 with
        | mk r2 s2 =>
          rw [ha] at h
          have t2 : s2.trace = s1.trace ++
              [Ev.addrAdd bri.name (arr.getD i default).ip] := by
            have := nlAddrAdd_trace bri ⟨(arr.getD i default).ip, "", (arr.getD i default).loopback⟩ s1
            rw [ha] at this
            simpa using this
          have step : ∀ s3' : Sys, s3'.trace = s2.trace ++ (List.nil) → True := fun _ _ => trivial
          cases r2 with
          | ok u2 =>
            simp only [] at h
            obtain ⟨evs, he, hmem⟩ := ih _ _ _ _ _ h
            refine ⟨Ev.addrDel dev.name (arr.getD i default).ip ::
              Ev.addrAdd bri.name (arr.getD i default).ip :: evs, ?_, ?_⟩
            · rw [he, t2, t1]
              simp
            · intro e he2
              rcases List.mem_cons.mp he2 with rfl | he3
              · trivial
              · rcases List.mem_cons.mp he3 with rfl | he4
                · trivial
                · exact hmem e he4
          | error e2 =>
            simp only [] at h
            by_cases hex : isFileExists e2
            · rw [if_pos hex] at h
              obtain ⟨evs, he, hmem⟩ := ih _ _ _ _ _ h
              refine ⟨Ev.addrDel dev.name (arr.getD i default).ip ::
                Ev.addrAdd bri.name (arr.getD i default).ip :: evs, ?_, ?_⟩
              · rw [he, t2, t1]
                simp
              · intro e he2
                rcases List.mem_cons.mp he2 with rfl | he3
                · trivial
                · rcases List.mem_cons.mp he3 with rfl | he4
                  · trivial
                  · exact hmem e he4
            · rw [if_neg hex] at h
              simp at h

/-- On success, the route re-add loop records only route-add events. -/
theorem initRouteLoop_ok_trace (dev : Link) (bi : Nat) (arr : List Addr)
    (rsAll : List Route) :
    ∀ rsR s s', initRouteLoop dev bi arr rsAll rsR s = (.ok (), s') →
      ∃ evs, s'.trace = s.trace ++ evs ∧ ∀ e ∈ evs, migrationStepEv e := by
  intro rsR
  induction rsR with
  | nil =>
    intro s s' h
    unfold initRouteLoop at h
    have hb : s = s' := by simpa using h
    exact ⟨[], by simp [← hb], by simp⟩
  | cons r rest ih =>
    intro s s' h
    unfold initRouteLoop at h
    simp only [] at h
    cases ha : nlRouteAdd ⟨r.gw, bi, r.dst, r.src, r.scope⟩ s with
    | mk r1 s1 =>
      rw [ha] at h
      have t1 : s1.trace = s.trace ++ [Ev.routeAdd bi] := by
        have := nlRouteAdd_trace ⟨r.gw, bi, r.dst, r.src, r.scope⟩ s
        rw [ha] at this
        simpa using this
      cases r1 with
      | ok u =>
        simp only [] at h
        obtain ⟨evs, he, hmem⟩ := ih _ _ h
        refine ⟨Ev.routeAdd bi :: evs, ?_, ?_⟩
        · rw [he, t1]
          simp
        · intro e he2
          rcases List.mem_cons.mp he2 with rfl | he3
          · trivial
          · exact hmem e he3
      | error e1 =>
        simp only [] at h
        by_cases hex : isFileExists e1
        · rw [if_pos hex] at h
          obtain ⟨evs, he, hmem⟩ := ih _ _ h
          refine ⟨Ev.routeAdd bi :: evs, ?_, ?_⟩
          · rw [he, t1]
            simp
          · intro e he2
            rcases List.mem_cons.mp he2 with rfl | he3
            · trivial
            · exact hmem e he3
        · rw [if_neg hex] at h
          simp at h

/-- On a successful run through Init's migration branch, the bridge
bring-up is recorded immediately after the (optional) bridge creation
and right before the route snapshot; everything recorded after the
snapshot is only address moves, the enslavement, and route re-adds. -/
theorem initPostResolve_migration_trace (d2 : VlanDriver) (dev : Link) (s1 : Sys)
    (s' : Sys)
    (hm1 : d2.conf.Switch ≠ "macvlan") (hm2 : d2.conf.Switch ≠ "ipvlan")
    (hm3 : d2.conf.Switch ≠ "pure")
    (hdis : d2.conf.DisableDefaultBridge ≠ some true)
    (haddr : ∀ da, LinkByIndexT s1.table dev.index = some da →
      FilterLoopbackAddr da.addrs ≠ [])
    (hok : initPostResolve d2 dev s1 = (.ok (), s')) :
    ∃ t0 tRest,
      s'.trace = s1.trace ++ t0 ++
        [Ev.linkSetUp d2.conf.DefaultBridgeName, Ev.routeList] ++ tRest
      ∧ (∀ e ∈ t0, e = Ev.linkAdd d2.conf.DefaultBridgeName)
      ∧ (∀ e ∈ tRest, migrationStepEv e) := by
  unfold initPostResolve at hok
  have hb1 : (MacVlanMode d2 || IPVlanMode d2) = false := by
    simp [MacVlanMode, IPVlanMode, hm1, hm2]
  have hb2 : PureMode d2 = false := by
    simp [PureMode, hm3]
  rw [hb1, hb2] at hok
  simp only [Bool.false_eq_true, if_false] at hok
  rw [if_neg hdis] at hok
  cases h2 : nlAddrList dev s1 with
  | mk r2 s2 =>
    rw [h2] at hok
    cases r2 with
    | error e => simp at hok
    | ok v4 =>
      simp only [] at hok
      obtain ⟨⟨da, hda, hv4⟩, hs2⟩ := nlAddrList_ok dev s1 v4 s2 h2
      subst hv4
      have t2 : s2.trace = s1.trace := by rw [hs2]
      have hne := haddr da hda
      have hemp : (FilterLoopbackAddr da.addrs).isEmpty = false := by
        simp [hne]
      rw [hemp] at hok
      simp only [Bool.false_eq_true, if_false] at hok
      cases h3 : getOrCreateBridge d2.conf.DefaultBridgeName (some dev.hw) s2 with
      | mk r3 s3 =>
        rw [h3] at hok
        cases r3 with
        | error e => simp at hok
        | ok bri =>
          simp only [] at hok
          obtain ⟨hbn, htr3⟩ := getOrCreateBridge_ok _ _ _ _ _ h3
          cases h4 : nlLinkSetUp bri s3 with
          | mk r4 s4 =>
            rw [h4] at hok
            have t4 : s4.trace = s3.trace ++ [Ev.linkSetUp bri.name] := by
              have := nlLinkSetUp_trace bri s3
              rw [h4] at this
              simpa using this
            cases r4 with
            | error e => simp at hok
            | ok u4 =>
              simp only [] at hok
              cases h5 : nlRouteList dev.index s4 with
              | mk r5 s5 =>
                rw [h5] at hok
                have t5 : s5.trace = s4.trace ++ [Ev.routeList] := by
                  have := nlRouteList_trace dev.index s4
                  rw [h5] at this
                  simpa using this
                cases r5 with
                | error e => simp at hok
                | ok rs =>
                  simp only [] at hok
                  cases h6 : initAddrLoop d2.conf.Device dev bri
                      d2.conf.DefaultBridgeName rs (FilterLoopbackAddr da.addrs) 0
                      (FilterLoopbackAddr da.addrs).length s5 with
                  | mk r6 s6 =>
                    rw [h6] at hok
                    cases r6 with
                    | error e => simp at hok
                    | ok arr =>
                      simp only [] at hok
                      obtain ⟨evs, t6, hm6⟩ :=
                        initAddrLoop_ok_trace _ _ _ _ _ _ _ _ _ _ _ h6
                      cases h7 : nlLinkSetMaster dev d2.conf.DefaultBridgeName s6 with
                      | mk r7 s7 =>
                        rw [h7] at hok
                        have t7 : s7.trace = s6.trace ++
                            [Ev.linkSetMaster dev.name d2.conf.DefaultBridgeName] := by
                          have := nlLinkSetMaster_trace dev d2.conf.DefaultBridgeName s6
                          rw [h7] at this
                          simpa using this
                        cases r7 with
                        | error e => simp at hok
                        | ok u7 =>
                          simp only [] at hok
                          cases h8 : initRouteLoop dev bri.index arr rs rs s7 with
                          | mk r8 s8 =>
                            rw [h8] at hok
                            cases r8 with
                            | error e => simp at hok
                            | ok u8 =>
                              obtain ⟨revs, t8, hm8⟩ :=
                                initRouteLoop_ok_trace _ _ _ _ _ _ _ h8
                              have hss : s8 = s' := by simpa using hok
                              subst hss
                              rcases htr3 with h30 | h30
                              · refine ⟨[], evs ++
                                  [Ev.linkSetMaster dev.name d2.conf.DefaultBridgeName]
                                  ++ revs, ?_, ?_, ?_⟩
                                · rw [t8, t7, t6, t5, t4, hbn, h30, t2]
                                  simp
                                · simp
                                · intro e he
                                  rcases List.mem_append.mp he with h9 | h9
                                  · rcases List.mem_append.mp h9 with h10 | h10
                                    · exact hm6 e h10
                                    · rcases List.mem_singleton.mp h10 with rfl
                                      trivial
                                  · exact hm8 e h9
                              · refine ⟨[Ev.linkAdd d2.conf.DefaultBridgeName], evs ++
                                  [Ev.linkSetMaster dev.name d2.conf.DefaultBridgeName]
                                  ++ revs, ?_, ?_, ?_⟩
                                · rw [t8, t7, t6, t5, t4, hbn, h30, t2]
                                  simp
                                · simp
                                · intro e he
                                  rcases List.mem_append.mp he with h9 | h9
                                  · rcases List.mem_append.mp h9 with h10 | h10
                                    · exact hm6 e h10
                                    · rcases List.mem_singleton.mp h10 with rfl
                                      trivial
                                  · exact hm8 e h9

/-- C3 amended: in every successful bridge-mode Init run that migrates
addresses (device resolved, not macvlan/ipvlan/pure, default bridge not
disabled, at least one non-loopback IPv4 address on the device), the
bridge bring-up is recorded immediately after the optional bridge
creation and before the route snapshot; every call after the snapshot
is an address move, the enslavement, or a route re-add — bring-up is an
early step, not the final one. -/
theorem c3_bridge_up_before_snapshot (d : VlanDriver) (s : Sys) (dev : Link)
    (d' : VlanDriver) (s' : Sys)
    (hdev : LinkByNameT s.table d.conf.Device = some dev)
    (hm1 : d.conf.Switch ≠ "macvlan") (hm2 : d.conf.Switch ≠ "ipvlan")
    (hm3 : d.conf.Switch ≠ "pure")
    (hdis : d.conf.DisableDefaultBridge ≠ some true)
    (haddr : ∀ da, LinkByIndexT s.table dev.index = some da →
      FilterLoopbackAddr da.addrs ≠ [])
    (hok : InitRun d s = (.ok (), d', s')) :
    ∃ t0 tRest,
      s'.trace = s.trace ++ t0 ++
        [Ev.linkSetUp d.conf.DefaultBridgeName, Ev.routeList] ++ tRest
      ∧ (∀ e ∈ t0, e = Ev.linkAdd d.conf.DefaultBridgeName)
      ∧ (∀ e ∈ tRest, migrationStepEv e) := by
  unfold InitRun at hok
  cases h1 : nlLinkByName d.conf.Device s with
  | mk r1 s1 =>
    rw [h1] at hok
    cases r1 with
    | error e => simp at hok
    | ok device =>
      simp only [] at hok
      obtain ⟨hf1, hs1⟩ := nlLinkByName_ok _ _ _ _ h1
      rw [hdev] at hf1
      have hde : dev = device := Option.some.inj hf1
      subst hde
      subst hs1
      simp only [Prod.mk.injEq] at hok
      obtain ⟨hA, hB, hC⟩ := hok
      subst hB
      have hrun : initPostResolve
          { d with DeviceIndex := dev.index,
                   vlanParentIndex := match dev.kind with
                     | .vlan _ parent => parent
                     | _ => dev.index }
          dev { s with calls := s.calls + 1 } = (.ok (), s') := by
        rw [← hA, ← hC]
      obtain ⟨t0, tR, hT, h0, hR⟩ :=
        initPostResolve_migration_trace
          { d with DeviceIndex := dev.index,
                   vlanParentIndex := match dev.kind with
                     | .vlan _ parent => parent
                     | _ => dev.index }
          dev { s with calls := s.calls + 1 } s' hm1 hm2 hm3 hdis
          (fun da hda => haddr da hda) hrun
      exact ⟨t0, tR, by simpa using hT, h0, hR⟩

/-- Witness for C3's amended ordering statement at the concrete
one-address one-route scenario. -/
theorem c3_bridge_up_before_snapshot_witness :
    ∃ t0 tRest,
      (InitRun egDriver c3Sys).2.2.trace = c3Sys.trace ++ t0 ++
        [Ev.linkSetUp egDriver.conf.DefaultBridgeName, Ev.routeList] ++ tRest
      ∧ (∀ e ∈ t0, e = Ev.linkAdd egDriver.conf.DefaultBridgeName)
      ∧ (∀ e ∈ tRest, migrationStepEv e) :=
  c3_bridge_up_before_snapshot egDriver c3Sys egEth1b
    (InitRun egDriver c3Sys).2.1 (InitRun egDriver c3Sys).2.2
    (by decide) (by decide) (by decide) (by decide) (by decide)
    (by
      intro da hda
      have h0 : LinkByIndexT c3Sys.table egEth1b.index = some egEth1b := by decide
      rw [h0] at hda
      cases Option.some.inj hda
      decide)
    (by decide)
